import Mathlib

/-!
Shallow embedding of `homework.py`, a fitness-tracker module that converts
sensor readings into workout summaries. Python floats are modelled as exact
rationals (all constants in the source are decimal literals), and fallible
operations (float division, which raises ZeroDivisionError in Python, and
floor division) return Option.
-/

/-- Conversion constant: meters per kilometer (`Training.M_IN_KM`). -/
def M_IN_KM : ℚ := 1000

/-- `InfoMessage` dataclass: the workout summary record. -/
structure InfoMessage where
  training_type : String
  duration : ℚ
  distance : ℚ
  speed : ℚ
  calories : ℚ
deriving DecidableEq, Repr

/-- Round a rational to the nearest integer, ties to even, as CPython's
fixed-point float formatting does on the decimal value being printed. -/
def roundHalfEven (q : ℚ) : ℤ :=
  if q - ⌊q⌋ < 1 / 2 then ⌊q⌋
  else if q - ⌊q⌋ > 1 / 2 then ⌊q⌋ + 1
  else if ⌊q⌋ % 2 = 0 then ⌊q⌋ else ⌊q⌋ + 1

/-- Zero-padded three-digit rendering of `n % 1000`. -/
def pad3 (n : ℕ) : String :=
  toString (n / 100 % 10) ++ toString (n / 10 % 10) ++ toString (n % 10)

/-- Python `f-string` fixed-point formatting with three decimals (`.3f`). -/
def fmt3 (q : ℚ) : String :=
  (if q < 0 then "-" else "") ++
  toString ((roundHalfEven (q * 1000)).natAbs / 1000) ++ "." ++
  pad3 ((roundHalfEven (q * 1000)).natAbs % 1000)

/-- `InfoMessage.get_message`: the formatted report line (labels are the
source's Russian literals). -/
def get_message (m : InfoMessage) : String :=
  "Тип тренировки: " ++ m.training_type ++
  "; Длительность: " ++ fmt3 m.duration ++
  " ч.; Дистанция: " ++ fmt3 m.distance ++
  " км; Ср. скорость: " ++ fmt3 m.speed ++
  " км/ч; Потрачено ккал: " ++ fmt3 m.calories ++ "."

/-- The training class hierarchy as a sum type: `Running`, `SportsWalking`
and `Swimming`, each with the fields its dataclass declares. -/
inductive Training where
  | running (action duration weight : ℚ)
  | sportsWalking (action duration weight height : ℚ)
  | swimming (action duration weight length_pool count_pool : ℚ)
deriving DecidableEq, Repr

/-- The `action` field, shared by all three variants. -/
def Training.action : Training → ℚ
  | .running a _ _ => a
  | .sportsWalking a _ _ _ => a
  | .swimming a _ _ _ _ => a

/-- The `duration` field, shared by all three variants. -/
def Training.duration : Training → ℚ
  | .running _ d _ => d
  | .sportsWalking _ d _ _ => d
  | .swimming _ d _ _ _ => d

/-- The `weight` field, shared by all three variants. -/
def Training.weight : Training → ℚ
  | .running _ _ w => w
  | .sportsWalking _ _ w _ => w
  | .swimming _ _ w _ _ => w

/-- `LEN_STEP` class attribute: 0.65 on `Training` (inherited by `Running`
and `SportsWalking`), overridden to 1.38 on `Swimming`. -/
def LEN_STEP : Training → ℚ
  | .running .. => 0.65
  | .sportsWalking .. => 0.65
  | .swimming .. => 1.38

/-- `Training.__class__.__name__` of the concrete variant. -/
def class_name : Training → String
  | .running .. => "Running"
  | .sportsWalking .. => "SportsWalking"
  | .swimming .. => "Swimming"

/-- Python float division: raises ZeroDivisionError when the divisor is 0. -/
def div? (a b : ℚ) : Option ℚ :=
  if b = 0 then none else some (a / b)

/-- Python float floor division `//`: floor of the quotient (as a float);
raises ZeroDivisionError when the divisor is 0. -/
def floordiv? (a b : ℚ) : Option ℚ :=
  if b = 0 then none else some ((⌊a / b⌋ : ℤ) : ℚ)

/-- `Training.get_distance`: `action * LEN_STEP / M_IN_KM`. -/
def get_distance (t : Training) : ℚ :=
  t.action * LEN_STEP t / M_IN_KM

/-- `get_mean_speed`: the base method returns `get_distance / duration`;
`Swimming` overrides it with `length_pool * count_pool / M_IN_KM / duration`. -/
def get_mean_speed? : Training → Option ℚ
  | .swimming _ d _ l c => div? (l * c / M_IN_KM) d
  | t => div? (get_distance t) t.duration

/-- `get_spent_calories`, per variant:
`Running`: `(18 * speed - 20) * weight / M_IN_KM * (duration * 60)`;
`SportsWalking`: `(0.035 * weight + (speed ** 2 // height) * 0.029 * weight) * (duration * 60)`;
`Swimming`: `(speed + 1.1) * 2 * weight`. -/
def get_spent_calories? (t : Training) : Option ℚ :=
  match t with
  | .running _ d w => do
      let s ← get_mean_speed? t
      pure ((18 * s - 20) * w / M_IN_KM * (d * 60))
  | .sportsWalking _ d w h => do
      let s ← get_mean_speed? t
      let q ← floordiv? (s ^ 2) h
      pure ((0.035 * w + q * 0.029 * w) * (d * 60))
  | .swimming _ _ w _ _ => do
      let s ← get_mean_speed? t
      pure ((s + 1.1) * 2 * w)

/-- `Training.show_training_info`: builds the `InfoMessage` from the class
name and the computed distance, speed and calories. -/
def show_training_info? (t : Training) : Option InfoMessage := do
  let s ← get_mean_speed? t
  let c ← get_spent_calories? t
  pure ⟨class_name t, t.duration, get_distance t, s, c⟩

/-- Does `needle` occur at the head of `hay`? (helper for Python's `in`). -/
def leadMatch : List Char → List Char → Bool
  | [], _ => true
  | _ :: _, [] => false
  | a :: as, b :: bs => a == b && leadMatch as bs

/-- Python's substring containment `needle in hay`. -/
def hasSub (hay needle : List Char) : Bool :=
  match hay with
  | [] => leadMatch needle []
  | _ :: t => leadMatch needle hay || hasSub t needle

/-- `Running(*data)`: succeeds exactly on a 3-element argument list. -/
def mkRunning? : List ℚ → Option Training
  | [a, d, w] => some (.running a d w)
  | _ => none

/-- `SportsWalking(*data)`: succeeds exactly on a 4-element argument list. -/
def mkWalking? : List ℚ → Option Training
  | [a, d, w, h] => some (.sportsWalking a d w h)
  | _ => none

/-- `Swimming(*data)`: succeeds exactly on a 5-element argument list. -/
def mkSwimming? : List ℚ → Option Training
  | [a, d, w, l, c] => some (.swimming a d w l c)
  | _ => none

/-- `read_package`: scans the `conformity` dict in insertion order
(RUN, WLK, SWM), first code contained in `workout_type` wins and its class
is constructed from `data` (a bad arity raises TypeError, modelled as
`Except.error`); with no match the function falls through and returns
`None`, modelled as `Except.ok none`. -/
def read_package (workout_type : String) (data : List ℚ) : Except Unit (Option Training) :=
  let wt := workout_type.toList
  if hasSub wt ((r"RUN").toList) then
    match mkRunning? data with
    | some t => .ok (some t)
    | none => .error ()
  else if hasSub wt ((r"WLK").toList) then
    match mkWalking? data with
    | some t => .ok (some t)
    | none => .error ()
  else if hasSub wt ((r"SWM").toList) then
    match mkSwimming? data with
    | some t => .ok (some t)
    | none => .error ()
  else .ok none

/-- Fully evaluated report line for the swimming scenario message. -/
lemma get_message_eval :
    get_message ⟨r"Swimming", 1, 0.9936, 1, 336⟩ =
      "Тип тренировки: Swimming; Длительность: 1.000 ч.; Дистанция: 0.994 км; Ср. скорость: 1.000 км/ч; Потрачено ккал: 336.000." := by
  have h1 : roundHalfEven ((1 : ℚ) * 1000) = 1000 := by norm_num [roundHalfEven]
  have h2 : roundHalfEven ((0.9936 : ℚ) * 1000) = 994 := by norm_num [roundHalfEven]
  have h3 : roundHalfEven ((336 : ℚ) * 1000) = 336000 := by norm_num [roundHalfEven]
  simp only [get_message, fmt3, h1, h2, h3]
  norm_num
  decide

/-- The training-type field of any summary produced by
`show_training_info?` is the variant's class name. -/
lemma show_training_info_type (t : Training) (m : InfoMessage)
    (hm : show_training_info? t = some m) : m.training_type = class_name t := by
  unfold show_training_info? at hm
  cases hms : get_mean_speed? t with
  | none => rw [hms] at hm; simp at hm
  | some s =>
    cases hcs : get_spent_calories? t with
    | none => rw [hms, hcs] at hm; simp at hm
    | some c =>
      rw [hms, hcs] at hm
      have hmm : InfoMessage.mk (class_name t) t.duration (get_distance t) s c = m := by
        simpa using hm
      rw [← hmm]

/-- C1: the claim says an unknown workout code makes `read_package` fail
with an explicit "unknown activity" error; evaluating the code at the
failing input shows it instead falls through and returns `None`
(`Except.ok none`), the silent no-result the spec's design notes call a
defect to fix. -/
theorem read_package_unknown_code_silent :
    read_package (r"XYZ") [720, 1, 80] = Except.ok none := by rfl

/-- C2: for every walking record with positive duration and height, the
calorie result is `(0.035 * weight + (speed ^ 2 // height) * 0.029 * weight)
* (duration * 60)` where `//` is floor division (the fractional part of
`speed ^ 2 / height` is discarded) and `speed` is the base mean speed
`action * 0.65 / 1000 / duration`. -/
theorem sportsWalking_calories_floor_division (a d w h : ℚ)
    (hd : 0 < d) (hh : 0 < h) :
    get_spent_calories? (.sportsWalking a d w h) =
      some ((0.035 * w + ((⌊(a * 0.65 / 1000 / d) ^ 2 / h⌋ : ℤ) : ℚ) * 0.029 * w)
        * (d * 60)) := by
  simp [get_spent_calories?, get_mean_speed?, get_distance, Training.action,
    Training.duration, LEN_STEP, div?, floordiv?, M_IN_KM, hd.ne', hh.ne']

/-- Witness for C2 at the walking scenario: action=9000, duration=1,
weight=75, height=180. -/
theorem sportsWalking_calories_floor_division_witness :
    get_spent_calories? (.sportsWalking 9000 1 75 180) =
      some ((0.035 * 75 + ((⌊((9000 : ℚ) * 0.65 / 1000 / 1) ^ 2 / 180⌋ : ℤ) : ℚ)
        * 0.029 * 75) * (1 * 60)) :=
  sportsWalking_calories_floor_division 9000 1 75 180 (by norm_num) (by norm_num)

/-- C4: for every swimming record with positive duration, the mean speed is
`length_pool * count_pool / 1000 / duration`, computed from pool geometry
(the `Swimming` override), not from the step-based distance. -/
theorem swimming_mean_speed_pool_geometry (a d w l c : ℚ) (hd : 0 < d) :
    get_mean_speed? (.swimming a d w l c) = some (l * c / 1000 / d) := by
  simp [get_mean_speed?, div?, M_IN_KM, hd.ne']

/-- Witness for C4 at the swimming scenario: pool 25 m, 40 laps, 1 h. -/
theorem swimming_mean_speed_pool_geometry_witness :
    get_mean_speed? (.swimming 720 1 80 25 40) = some (25 * 40 / 1000 / 1) :=
  swimming_mean_speed_pool_geometry 720 1 80 25 40 (by norm_num)

/-- C5: for every running record whose mean-speed computation succeeds
(positive duration suffices), the calorie result is
`(18 * speed - 20) * weight / 1000 * (duration * 60)`. -/
theorem running_calories_formula (a d w s : ℚ)
    (hs : get_mean_speed? (.running a d w) = some s) :
    get_spent_calories? (.running a d w) =
      some ((18 * s - 20) * w / 1000 * (d * 60)) := by
  simp [get_spent_calories?, hs, M_IN_KM]

/-- Witness for C5 at the running scenario: action=15000, duration=1,
weight=75, so speed = 9.75. -/
theorem running_calories_formula_witness :
    get_spent_calories? (.running 15000 1 75) =
      some ((18 * 9.75 - 20) * 75 / 1000 * (1 * 60)) :=
  running_calories_formula 15000 1 75 9.75 (by
    norm_num [get_mean_speed?, get_distance, Training.action, Training.duration,
      LEN_STEP, div?, M_IN_KM])

/-- C6: for every record of every activity type, the reported distance is
`action * step_length / 1000`, where the step length is 0.65 for running
and walking and 1.38 for swimming. -/
theorem get_distance_step_length :
    (∀ a d w : ℚ, get_distance (.running a d w) = a * 0.65 / 1000) ∧
    (∀ a d w h : ℚ, get_distance (.sportsWalking a d w h) = a * 0.65 / 1000) ∧
    (∀ a d w l c : ℚ, get_distance (.swimming a d w l c) = a * 1.38 / 1000) := by
  refine ⟨fun a d w => ?_, fun a d w h => ?_, fun a d w l c => ?_⟩ <;>
    simp [get_distance, LEN_STEP, Training.action, M_IN_KM]

/-- C7: the base mean-speed computation (used by running and walking) is
`get_distance / duration`; it fails with a division-by-zero error exactly
when the duration is 0, and for any nonzero duration it returns the
quotient. -/
theorem base_mean_speed_division :
    (∀ a d w : ℚ, get_mean_speed? (.running a d w) = none ↔ d = 0) ∧
    (∀ a d w h : ℚ, get_mean_speed? (.sportsWalking a d w h) = none ↔ d = 0) ∧
    (∀ a d w : ℚ, d ≠ 0 →
      get_mean_speed? (.running a d w) = some (get_distance (.running a d w) / d)) ∧
    (∀ a d w h : ℚ, d ≠ 0 →
      get_mean_speed? (.sportsWalking a d w h) =
        some (get_distance (.sportsWalking a d w h) / d)) := by
  refine ⟨fun a d w => ?_, fun a d w h => ?_, fun a d w hd => ?_, fun a d w h hd => ?_⟩
  · by_cases hd : d = 0 <;> simp [get_mean_speed?, div?, Training.duration, hd]
  · by_cases hd : d = 0 <;> simp [get_mean_speed?, div?, Training.duration, hd]
  · simp [get_mean_speed?, div?, Training.duration, hd]
  · simp [get_mean_speed?, div?, Training.duration, hd]

/-- Witness for C7: duration 0 fails; duration 1 returns distance / 1. -/
theorem base_mean_speed_division_witness :
    get_mean_speed? (.running 1 0 1) = none ∧
    get_mean_speed? (.running 15000 1 75) =
      some (get_distance (.running 15000 1 75) / 1) :=
  ⟨(base_mean_speed_division.1 1 0 1).mpr rfl,
    base_mean_speed_division.2.2.1 15000 1 75 one_ne_zero⟩

/-- C8: for every swimming record whose mean-speed computation succeeds,
the calorie result is `(speed + 1.1) * 2 * weight`; and at the scenario
action=720, duration=1, weight=80, pool 25 m × 40 laps, the summary has
distance 0.9936 km, speed 1 km/h and calories 336. -/
theorem swimming_calories_and_scenario :
    (∀ a d w l c s : ℚ, get_mean_speed? (.swimming a d w l c) = some s →
      get_spent_calories? (.swimming a d w l c) = some ((s + 1.1) * 2 * w)) ∧
    show_training_info? (.swimming 720 1 80 25 40) =
      some ⟨r"Swimming", 1, 0.9936, 1, 336⟩ := by
  constructor
  · intro a d w l c s hs
    simp [get_spent_calories?, hs]
  · norm_num [show_training_info?, get_spent_calories?, get_mean_speed?, get_distance,
      Training.action, Training.duration, LEN_STEP, class_name, div?, M_IN_KM]

/-- Witness for C8: the swimming scenario record has speed 1, hence
calories (1 + 1.1) * 2 * 80. -/
theorem swimming_calories_and_scenario_witness :
    get_spent_calories? (.swimming 720 1 80 25 40) = some ((1 + 1.1) * 2 * 80) :=
  swimming_calories_and_scenario.1 720 1 80 25 40 1
    (by norm_num [get_mean_speed?, div?, M_IN_KM])

/-- C9: there is a valid running record (positive duration and weight,
mean speed below 20/18 km/h) whose calorie result is strictly negative:
no lower bound of zero is enforced. -/
theorem running_calories_negative_possible :
    ∃ a d w cal : ℚ, 0 < d ∧ 0 < w ∧
      (∃ s : ℚ, get_mean_speed? (.running a d w) = some s ∧ s < 20 / 18) ∧
      get_spent_calories? (.running a d w) = some cal ∧ cal < 0 := by
  refine ⟨100, 1, 75, -84.735, by norm_num, by norm_num,
    ⟨0.065, ?_, by norm_num⟩, ?_, by norm_num⟩
  · norm_num [get_mean_speed?, get_distance, Training.action, Training.duration,
      LEN_STEP, div?, M_IN_KM]
  · norm_num [get_spent_calories?, get_mean_speed?, get_distance, Training.action,
      Training.duration, LEN_STEP, div?, M_IN_KM]

/-- C10: the activity name placed in any produced summary is the concrete
variant's class name — "Running", "SportsWalking" or "Swimming" — and never
one of the dispatch codes "RUN", "WLK", "SWM". -/
theorem summary_name_is_class_name (t : Training) (m : InfoMessage)
    (hm : show_training_info? t = some m) :
    m.training_type = class_name t ∧
    (m.training_type = "Running" ∨ m.training_type = "SportsWalking" ∨
      m.training_type = "Swimming") ∧
    m.training_type ≠ "RUN" ∧ m.training_type ≠ "WLK" ∧ m.training_type ≠ "SWM" := by
  have h1 := show_training_info_type t m hm
  refine ⟨h1, ?_, ?_, ?_, ?_⟩ <;> rw [h1] <;> cases t <;> simp [class_name]

/-- Witness for C10 at the running scenario record. -/
theorem summary_name_is_class_name_witness :
    (InfoMessage.mk (r"Running") 1 9.75 9.75 699.75).training_type =
      class_name (.running 15000 1 75) ∧
    ((InfoMessage.mk (r"Running") 1 9.75 9.75 699.75).training_type = "Running" ∨
      (InfoMessage.mk (r"Running") 1 9.75 9.75 699.75).training_type = "SportsWalking" ∨
      (InfoMessage.mk (r"Running") 1 9.75 9.75 699.75).training_type = "Swimming") ∧
    (InfoMessage.mk (r"Running") 1 9.75 9.75 699.75).training_type ≠ "RUN" ∧
    (InfoMessage.mk (r"Running") 1 9.75 9.75 699.75).training_type ≠ "WLK" ∧
    (InfoMessage.mk (r"Running") 1 9.75 9.75 699.75).training_type ≠ "SWM" :=
  summary_name_is_class_name (.running 15000 1 75) ⟨r"Running", 1, 9.75, 9.75, 699.75⟩
    (by norm_num [show_training_info?, get_spent_calories?, get_mean_speed?,
      get_distance, Training.action, Training.duration, LEN_STEP, class_name,
      div?, M_IN_KM])

/-- C3 counterexample: the claim says the report line is exactly the
English "Activity type: ..." template; the code's labels are Russian, so
at the swimming scenario message the produced text differs from the
claimed text. -/
theorem get_message_not_english_text :
    get_message ⟨r"Swimming", 1, 0.9936, 1, 336⟩ ≠
      r"Activity type: Swimming; Duration: 1.000 h; Distance: 0.994 km; Avg speed: 1.000 km/h; Calories burned: 336.000." := by
  rw [get_message_eval]
  decide

/-- C3 (amended): every summary is reported as the single line
"Тип тренировки: {name}; Длительность: {duration} ч.; Дистанция:
{distance} км; Ср. скорость: {speed} км/ч; Потрачено ккал: {calories}."
with three-decimal fixed-point formatting applied to all four numeric
fields, as the fully evaluated swimming scenario line exhibits. -/
theorem get_message_format (m : InfoMessage) :
    get_message m =
      "Тип тренировки: " ++ m.training_type ++ "; Длительность: " ++ fmt3 m.duration ++
      " ч.; Дистанция: " ++ fmt3 m.distance ++ " км; Ср. скорость: " ++ fmt3 m.speed ++
      " км/ч; Потрачено ккал: " ++ fmt3 m.calories ++ "." ∧
    get_message ⟨r"Swimming", 1, 0.9936, 1, 336⟩ =
      "Тип тренировки: Swimming; Длительность: 1.000 ч.; Дистанция: 0.994 км; Ср. скорость: 1.000 км/ч; Потрачено ккал: 336.000." :=
  ⟨rfl, get_message_eval⟩
